import Mathlib

/-!
Verification of the defectio client runtime (api/cache.py, api/gateway.py,
api/event_manager.py, config.py, models/objects.py) against its
natural-language specification.

Modelling conventions.

Python dicts are ordered association lists over string keys: an update of an
existing key replaces its value in place, a new key is appended.

Per models/objects.py, `Object` is a subclass of `str`, and `Unique.__str__`
returns `str(self.id)`; hence `objects.Object(x)` is `x` itself when `x` is a
string, and the id string of `x` when `x` is an entity.  All cache keys are
therefore plain strings.

Entities are modelled as records carrying the fields the verified api-layer
code constructs and reads.  The runtime `app` back-reference and
presentation-only nested objects (status, relationship, attachment data) are
not inspected by any verified operation and are omitted.

Fallible Python code is modelled with `Except PyErr`; where a method mutates
state before raising, the operation returns the mutated state together with
the error, matching the in-place mutation semantics of the source.
-/

namespace Defectio

/-- Exceptions that the modelled code paths can raise, at the granularity the
control flow distinguishes them.  `keyError` is a `LookupError` subclass in
Python; `gatewayError` models defectio.errors.GatewayError, which derives from
DefectioError and RuntimeError and from neither aiohttp.ClientError nor
asyncio.TimeoutError. -/
inductive PyErr where
  | typeError (msg : String)
  | attributeError (msg : String)
  | keyError (key : String)
  | nameError (name : String)
  | gatewayError (reason : String)
  | aiohttpClientError
  | asyncioTimeoutError
  deriving DecidableEq, Repr

/-- Python `except LookupError` matches `KeyError` and `IndexError`. -/
def PyErr.isLookupError : PyErr → Bool
  | PyErr.keyError _ => true
  | _ => false

/-- Models the Python call `tuple(a, b)` with two arguments, as written at the
end of every `MutableCache.update_*` method in api/cache.py.  The builtin
`tuple` accepts at most one iterable argument, so the call raises `TypeError`
before anything is returned. -/
def tuple2 (a : α) (b : β) : Except PyErr (α × β) :=
  Except.error (PyErr.typeError "tuple expected at most 1 argument, got 2")

/-- Models the expression `copy.copy(x)` as it evaluates inside api/cache.py.
That module imports `from copy import copy`, so the name `copy` is bound to
the copy function itself; the attribute access `copy.copy` raises
`AttributeError` before `x` is copied. -/
def copy_copy (a : α) : Except PyErr α :=
  Except.error (PyErr.attributeError "function object has no attribute copy")

/-- `objects.Object` applied to a string is that string (Object subclasses
str); call sites pass `entity.id` where the source applies it to an entity,
because `Unique.__str__` returns the id string. -/
def Object (k : String) : String := k

/-- Python `d.get(k)` / `d.get(k, None)` on a string-keyed dict. -/
def dictGet (d : List (String × α)) (k : String) : Option α :=
  match d with
  | [] => none
  | p :: rest => if p.1 = k then some p.2 else dictGet rest k

/-- Python `d[k] = v`: replace the value at an existing key in place,
otherwise append the new binding (dicts preserve insertion order). -/
def dictSet (d : List (String × α)) (k : String) (v : α) : List (String × α) :=
  match d with
  | [] => [(k, v)]
  | p :: rest => if p.1 = k then (k, v) :: rest else p :: dictSet rest k v

/-- Python `d.pop(k, None)`: the removed value, if any, and the remaining
dict. -/
def dictPop (d : List (String × α)) (k : String) : Option α × List (String × α) :=
  match d with
  | [] => (none, [])
  | p :: rest =>
    if p.1 = k then (some p.2, rest)
    else
      let r := dictPop rest k
      (r.1, p :: r.2)

/-- config.py CacheComponents flag values. -/
def CacheComponents.NONE : Nat := 0

def CacheComponents.SERVERS : Nat := 1

def CacheComponents.SERVER_CHANNELS : Nat := 2

def CacheComponents.MEMBERS : Nat := 4

def CacheComponents.ROLES : Nat := 8

def CacheComponents.INVITES : Nat := 16

def CacheComponents.EMOJIS : Nat := 32

def CacheComponents.PRESENCES : Nat := 64

def CacheComponents.VOICE_STATES : Nat := 128

def CacheComponents.MESSAGES : Nat := 256

def CacheComponents.DM_CHANNEL_IDS : Nat := 1024

/-- config.py: ALL is the union of every component flag. -/
def CacheComponents.ALL : Nat :=
  CacheComponents.SERVERS |||
  CacheComponents.SERVER_CHANNELS |||
  CacheComponents.MEMBERS |||
  CacheComponents.ROLES |||
  CacheComponents.INVITES |||
  CacheComponents.EMOJIS |||
  CacheComponents.PRESENCES |||
  CacheComponents.VOICE_STATES |||
  CacheComponents.MESSAGES |||
  CacheComponents.DM_CHANNEL_IDS

/-- config.py CacheSettings: enabled components, message-cache bound,
DM-channel-id bound. -/
structure CacheSettings where
  components : Nat
  max_messages : Nat
  max_dm_channel_ids : Nat
  deriving DecidableEq, Repr

/-- The documented defaults: ALL components, 300 messages, 50 dm channel
ids. -/
def defaultCacheSettings : CacheSettings :=
  { components := CacheComponents.ALL, max_messages := 300, max_dm_channel_ids := 50 }

/-- models/user.py OwnUser, reduced to identity and name. -/
structure OwnUser where
  id : String
  name : String
  deriving DecidableEq, Repr

/-- models/user.py User as the api layer keys and stores it: the Identity,
the username and the online flag. -/
structure User where
  id : String
  name : String
  online : Bool
  deriving DecidableEq, Repr

/-- models/server.py Server, reduced to the fields the event manager
constructs that the cache logic can observe. -/
structure Server where
  id : String
  name : String
  owner_id : String
  description : Option String
  channel_ids : List String
  deriving DecidableEq, Repr

/-- Member as constructed by parse_server_member_join in
api/event_manager.py: `Member(app=..., id=Object(payload[id]),
user_id=Object(payload[user]))`, so `id` holds the server id of the join
payload and `user_id` the user id.  (models/member.py still carries a
legacy `(data, state)` signature; the api layer is verified on the fields
its own call site passes.) -/
structure Member where
  id : String
  user_id : String
  deriving DecidableEq, Repr

/-- models/message.py Message, with the fields parse_message passes. -/
structure Message where
  id : String
  channel_id : String
  author_id : String
  content : String
  replies_ids : List String
  deriving DecidableEq, Repr

/-- The channel variants of models/channel.py, tagged by class.  Only the
identity and the TextChannel payload fields are carried; parse_ready is the
sole constructor site the verified code reaches. -/
inductive Channel where
  | partialChannel (id : String)
  | savedMessageChannel (id : String)
  | dMChannel (id : String)
  | groupChannel (id : String)
  | textChannel (id : String) (server_id : String) (name : String) (description : Option String)
  | voiceChannel (id : String)
  deriving DecidableEq, Repr

/-- The identity of a channel value (PartialChannel.id in the source). -/
def Channel.id : Channel → String
  | Channel.partialChannel i => i
  | Channel.savedMessageChannel i => i
  | Channel.dMChannel i => i
  | Channel.groupChannel i => i
  | Channel.textChannel i _ _ _ => i
  | Channel.voiceChannel i => i

/-- The channel_type discriminator string that names each variant in the wire
protocol (the Saved/Direct/Group/Text/Voice kinds of the spec). -/
def Channel.kind : Channel → String
  | Channel.partialChannel _ => "Partial"
  | Channel.savedMessageChannel _ => "SavedMessage"
  | Channel.dMChannel _ => "DirectMessage"
  | Channel.groupChannel _ => "Group"
  | Channel.textChannel _ _ _ _ => "TextChannel"
  | Channel.voiceChannel _ => "VoiceChannel"

/-- The state owned by api/cache.py Cache: the self user and the five keyed
collections, plus the construction-time settings.  `_me` is initialised to an
empty placeholder by `_create_cache`, modelled as `none`. -/
structure CacheState where
  settings : CacheSettings
  me : Option OwnUser
  users : List (String × User)
  channels : List (String × Channel)
  servers : List (String × Server)
  members : List (String × Member)
  messages : List (String × Message)
  deriving DecidableEq, Repr

/-- Cache.__init__ / Cache._create_cache: every collection empty. -/
def mkCache (settings : CacheSettings) : CacheState :=
  { settings := settings, me := none, users := [], channels := [], servers := [],
    members := [], messages := [] }

/-- Cache.get_me. -/
def Cache.get_me (c : CacheState) : Option OwnUser := c.me

/-- Cache.get_user: `self._users.get(objects.Object(user), None)`. -/
def Cache.get_user (c : CacheState) (user : String) : Option User :=
  dictGet c.users (Object user)

/-- Cache.get_users_view. -/
def Cache.get_users_view (c : CacheState) : List (String × User) := c.users

/-- Cache.get_channel: `self._channels.get(str(channel), None)`. -/
def Cache.get_channel (c : CacheState) (channel : String) : Option Channel :=
  dictGet c.channels channel

/-- Cache.get_channel_view. -/
def Cache.get_channel_view (c : CacheState) : List (String × Channel) := c.channels

/-- Cache.get_server: `self._servers.get(str(server), None)`. -/
def Cache.get_server (c : CacheState) (server : String) : Option Server :=
  dictGet c.servers server

/-- Cache.get_servers_view. -/
def Cache.get_servers_view (c : CacheState) : List (String × Server) := c.servers

/-- Cache.get_member (api/cache.py lines 99-103): the body is marked TODO and
reads `self._members.get(str())` — the lookup key is the empty string
`str()`, regardless of the server and user arguments. -/
def Cache.get_member (c : CacheState) (server : String) (user : String) : Option Member :=
  dictGet c.members ""

/-- Cache.get_members_view. -/
def Cache.get_members_view (c : CacheState) : List (String × Member) := c.members

/-- Cache.get_message: `self._messages.get(str(message), None)`. -/
def Cache.get_message (c : CacheState) (message : String) : Option Message :=
  dictGet c.messages message

/-- Cache.get_messages_view. -/
def Cache.get_messages_view (c : CacheState) : List (String × Message) := c.messages

/-- Cache.clear: a no-op when all components are disabled, otherwise resets
every collection (the read-only base class carries the only NONE check in the
file). -/
def Cache.clear (c : CacheState) : CacheState :=
  if c.settings.components = CacheComponents.NONE then c else mkCache c.settings

/-- MutableCache.clear: unconditionally re-creates every collection; the
override drops the NONE check of Cache.clear. -/
def MutableCache.clear (c : CacheState) : CacheState := mkCache c.settings

/-- MutableCache.set_me. -/
def MutableCache.set_me (c : CacheState) (user : OwnUser) : CacheState :=
  { c with me := some user }

/-- MutableCache.clear_me: `copy.copy(self._me)` raises AttributeError before
`self._me` is reset, so the state is unchanged and the call raises. -/
def MutableCache.clear_me (c : CacheState) : CacheState × Except PyErr (Option OwnUser) :=
  match copy_copy c.me with
  | Except.error e => (c, Except.error e)
  | Except.ok old_me => ({ c with me := none }, Except.ok old_me)

/-- MutableCache.update_me: `copy.copy(self._me)` raises AttributeError on
the first line, before the assignment, so the state is unchanged.  (Were the
copy to succeed, the final `tuple(old_me, self._me)` would raise TypeError.) -/
def MutableCache.update_me (c : CacheState) (user : OwnUser) :
    CacheState × Except PyErr (Option OwnUser × OwnUser) :=
  match copy_copy c.me with
  | Except.error e => (c, Except.error e)
  | Except.ok _old =>
    let c2 := { c with me := some user }
    match tuple2 c.me user with
    | Except.error e => (c2, Except.error e)
    | Except.ok p => (c2, Except.ok p)

/-- MutableCache.clear_users: `copy.copy(self._users)` raises AttributeError
before the collection is reset. -/
def MutableCache.clear_users (c : CacheState) :
    CacheState × Except PyErr (List (String × User)) :=
  match copy_copy c.users with
  | Except.error e => (c, Except.error e)
  | Except.ok old_users => ({ c with users := [] }, Except.ok old_users)

/-- MutableCache.delete_user: `self._users.pop(objects.Object(user), None)`. -/
def MutableCache.delete_user (c : CacheState) (user : String) :
    CacheState × Option User :=
  let r := dictPop c.users (Object user)
  ({ c with users := r.2 }, r.1)

/-- MutableCache.set_user: `self._users[objects.Object(user)] = user`. -/
def MutableCache.set_user (c : CacheState) (user : User) : CacheState :=
  { c with users := dictSet c.users (Object user.id) user }

/-- MutableCache.update_user: reads the previous value, stores the new one,
then evaluates `return tuple(old_user, self._users[...])`, which raises
TypeError; the mutation has already happened when the call raises. -/
def MutableCache.update_user (c : CacheState) (user : User) :
    CacheState × Except PyErr (Option User × User) :=
  let old_user := dictGet c.users (Object user.id)
  let c2 := { c with users := dictSet c.users (Object user.id) user }
  (c2, tuple2 old_user user)

/-- MutableCache.clear_channels: rebinds the collection and returns the pair
of the old and the new dict (a genuine tuple literal here, so no error). -/
def MutableCache.clear_channels (c : CacheState) :
    CacheState × (List (String × Channel) × List (String × Channel)) :=
  ({ c with channels := [] }, (c.channels, []))

/-- MutableCache.delete_channel. -/
def MutableCache.delete_channel (c : CacheState) (channel : String) :
    CacheState × Option Channel :=
  let r := dictPop c.channels (Object channel)
  ({ c with channels := r.2 }, r.1)

/-- MutableCache.set_channel: `self._channels[objects.Object(channel)] =
channel`. -/
def MutableCache.set_channel (c : CacheState) (channel : Channel) : CacheState :=
  { c with channels := dictSet c.channels (Object channel.id) channel }

/-- MutableCache.update_channel: same shape as update_user, ending in the
two-argument `tuple(...)` call that raises TypeError. -/
def MutableCache.update_channel (c : CacheState) (channel : Channel) :
    CacheState × Except PyErr (Option Channel × Channel) :=
  let old_channel := dictGet c.channels (Object channel.id)
  let c2 := { c with channels := dictSet c.channels (Object channel.id) channel }
  (c2, tuple2 old_channel channel)

/-- MutableCache.clear_servers: rebinds and returns the old dict. -/
def MutableCache.clear_servers (c : CacheState) :
    CacheState × List (String × Server) :=
  ({ c with servers := [] }, c.servers)

/-- MutableCache.set_server. -/
def MutableCache.set_server (c : CacheState) (server : Server) : CacheState :=
  { c with servers := dictSet c.servers (Object server.id) server }

/-- MutableCache.update_server: ends in the two-argument `tuple(...)` call. -/
def MutableCache.update_server (c : CacheState) (server : Server) :
    CacheState × Except PyErr (Option Server × Server) :=
  let old_server := dictGet c.servers (Object server.id)
  let c2 := { c with servers := dictSet c.servers (Object server.id) server }
  (c2, tuple2 old_server server)

/-- MutableCache.clear_members: rebinds and returns the old dict. -/
def MutableCache.clear_members (c : CacheState) :
    CacheState × List (String × Member) :=
  ({ c with members := [] }, c.members)

/-- MutableCache.delete_member: `self._members.pop(objects.Object(member),
None)`; `Object(member)` is the member entity id string. -/
def MutableCache.delete_member (c : CacheState) (member : String) :
    CacheState × Option Member :=
  let r := dictPop c.members (Object member)
  ({ c with members := r.2 }, r.1)

/-- MutableCache.set_member: keyed by `objects.Object(member)`, the member
entity id (a single id, not the server and user composite of the spec). -/
def MutableCache.set_member (c : CacheState) (member : Member) : CacheState :=
  { c with members := dictSet c.members (Object member.id) member }

/-- MutableCache.update_member: ends in the two-argument `tuple(...)` call. -/
def MutableCache.update_member (c : CacheState) (member : Member) :
    CacheState × Except PyErr (Option Member × Member) :=
  let old_member := dictGet c.members (Object member.id)
  let c2 := { c with members := dictSet c.members (Object member.id) member }
  (c2, tuple2 old_member member)

/-- MutableCache.clear_messages: rebinds and returns the old dict. -/
def MutableCache.clear_messages (c : CacheState) :
    CacheState × List (String × Message) :=
  ({ c with messages := [] }, c.messages)

/-- MutableCache.delete_message. -/
def MutableCache.delete_message (c : CacheState) (message : String) :
    CacheState × Option Message :=
  let r := dictPop c.messages (Object message)
  ({ c with messages := r.2 }, r.1)

/-- MutableCache.set_message: a plain dict store; `settings.max_messages` is
never consulted and no entry is ever evicted. -/
def MutableCache.set_message (c : CacheState) (message : Message) : CacheState :=
  { c with messages := dictSet c.messages (Object message.id) message }

/-- MutableCache.update_message: ends in the two-argument `tuple(...)`
call. -/
def MutableCache.update_message (c : CacheState) (message : Message) :
    CacheState × Except PyErr (Option Message × Message) :=
  let old_message := dictGet c.messages (Object message.id)
  let c2 := { c with messages := dictSet c.messages (Object message.id) message }
  (c2, tuple2 old_message message)

/-- MutableCache.set_server_channel: abstract in base/cache.py with a
docstring-only body, never overridden; calling it mutates nothing. -/
def MutableCache.set_server_channel (c : CacheState) (channel : Channel) : CacheState :=
  c

/-- The domain events the modelled parsers dispatch. -/
inductive DomainEvent where
  | ready
  | message (m : Message)
  | channel_create (c : Channel)
  | channel_delete (old : Channel) (c : Channel)
  | server_delete (s : Server)
  | server_member_join (m : Member)
  | server_member_leave (m : Member)
  | server_member_update (old : Member) (m : Member)
  | user_update (old : User) (u : User)
  deriving DecidableEq, Repr

/-- One observable step of a parser: a cache mutation or a dispatch call. -/
inductive Action where
  | setUser (k : String)
  | setChannel (k : String)
  | setServer (k : String)
  | setMember (k : String)
  | setMessage (k : String)
  | deleteMember (k : String)
  | deleteServer (k : String)
  | emit (e : DomainEvent)
  deriving DecidableEq, Repr

/-- The dispatch calls of a trace, in order. -/
def emittedEvents (tr : List Action) : List DomainEvent :=
  tr.filterMap fun a =>
    match a with
    | Action.emit e => some e
    | _ => none

/-- EventManager state: `self._cache` (None when constructed without a
cache) and the observable trace. -/
structure EMState where
  cache : Option CacheState
  trace : List Action
  deriving DecidableEq, Repr

/-- ServerMemberJoin / ServerMemberLeave wire payload
(types/websocket.py): the server id under key id and the user id under key
user. -/
structure ServerMemberJoinPayload where
  id : String
  user : String
  deriving DecidableEq, Repr

/-- ServerMemberLeave payload: same two fields as the join payload. -/
structure ServerMemberLeavePayload where
  id : String
  user : String
  deriving DecidableEq, Repr

/-- ServerMemberUpdate payload; the handler body ignores it entirely. -/
structure ServerMemberUpdatePayload where
  id : String
  deriving DecidableEq, Repr

/-- MessageUpdate payload id; the handler body is pass. -/
structure MessageUpdatePayload where
  id : String
  deriving DecidableEq, Repr

/-- ChannelCreate payload id (the full channel payload is wrapped whole into
PartialChannel). -/
structure ChannelCreatePayload where
  id : String
  deriving DecidableEq, Repr

/-- One channel object of the Ready payload, with the fields the parse_ready
channel loop reads. -/
structure ReadyChannelPayload where
  channel_type : String
  id : String
  server : String
  name : String
  description : Option String
  deriving DecidableEq, Repr

/-- parse_message_update: the whole body after the cache check is commented
out; nothing is mutated and nothing is dispatched. -/
def parse_message_update (st : EMState) (p : MessageUpdatePayload) :
    EMState × Except PyErr Unit :=
  (st, Except.ok ())

/-- parse_channel_create: wraps the payload in a PartialChannel, calls the
docstring-only set_server_channel (which stores nothing), then dispatches
channel_create. -/
def parse_channel_create (st : EMState) (p : ChannelCreatePayload) :
    EMState × Except PyErr Unit :=
  let channel := Channel.partialChannel (Object p.id)
  let st1 :=
    match st.cache with
    | some c => { st with cache := some (MutableCache.set_server_channel c channel) }
    | none => st
  ({ st1 with trace := st1.trace ++ [Action.emit (DomainEvent.channel_create channel)] },
   Except.ok ())

/-- parse_server_member_join: builds the member from the payload ids, stores
it when a cache is present, then dispatches server_member_join. -/
def parse_server_member_join (st : EMState) (p : ServerMemberJoinPayload) :
    EMState × Except PyErr Unit :=
  let member : Member := { id := Object p.id, user_id := Object p.user }
  let st1 :=
    match st.cache with
    | some c =>
      { st with cache := some (MutableCache.set_member c member),
                trace := st.trace ++ [Action.setMember member.id] }
    | none => st
  ({ st1 with trace := st1.trace ++ [Action.emit (DomainEvent.server_member_join member)] },
   Except.ok ())

/-- parse_server_member_leave: looks the member up via Cache.get_member
(whose lookup key is always the empty string); when found it would dispatch
server_member_leave first and delete the entry second. -/
def parse_server_member_leave (st : EMState) (p : ServerMemberLeavePayload) :
    EMState × Except PyErr Unit :=
  match st.cache with
  | none => (st, Except.ok ())
  | some c =>
    match Cache.get_member c (Object p.id) (Object p.user) with
    | none => (st, Except.ok ())
    | some member =>
      let st1 :=
        { st with trace := st.trace ++
            [Action.emit (DomainEvent.server_member_leave member)] }
      let r := MutableCache.delete_member c (Object member.id)
      ({ st1 with cache := some r.1,
                  trace := st1.trace ++ [Action.deleteMember member.id] },
       Except.ok ())

/-- parse_server_member_update: the whole body after the cache check is
commented out; nothing is mutated and nothing is dispatched. -/
def parse_server_member_update (st : EMState) (p : ServerMemberUpdatePayload) :
    EMState × Except PyErr Unit :=
  (st, Except.ok ())

/-- The channel loop of parse_ready (api/event_manager.py lines 180-211).
The SavedMessage branch builds a SavedMessageChannel; the DirectMessage,
Group and VoiceChannel branches also build a SavedMessageChannel (the
imported DMChannel, GroupChannel and VoiceChannel classes are unused here);
the TextChannel branch builds a TextChannel.  An unrecognised discriminator
only logs a warning, and the set_channel call below the if-chain still runs
with the loop variable from the previous iteration — a NameError on the
first iteration.  The loop threads that variable explicitly. -/
def readyChannelsLoop (c : CacheState) (channelVar : Option Channel)
    (chs : List ReadyChannelPayload) : CacheState × Except PyErr Unit :=
  match chs with
  | [] => (c, Except.ok ())
  | p :: rest =>
    let channelNew : Option Channel :=
      if p.channel_type = "SavedMessage" then
        some (Channel.savedMessageChannel (Object p.id))
      else if p.channel_type = "DirectMessage" then
        some (Channel.savedMessageChannel (Object p.id))
      else if p.channel_type = "Group" then
        some (Channel.savedMessageChannel (Object p.id))
      else if p.channel_type = "TextChannel" then
        some (Channel.textChannel (Object p.id) (Object p.server) p.name p.description)
      else if p.channel_type = "VoiceChannel" then
        some (Channel.savedMessageChannel (Object p.id))
      else
        channelVar
    match channelNew with
    | none => (c, Except.error (PyErr.nameError "channel"))
    | some ch => readyChannelsLoop (MutableCache.set_channel c ch) (some ch) rest

/-- The channel section of parse_ready: runs the channel loop when a cache
is present.  An escaping NameError aborts the rest of parse_ready. -/
def parse_ready_channels (st : EMState) (chs : List ReadyChannelPayload) :
    EMState × Except PyErr Unit :=
  match st.cache with
  | none => (st, Except.ok ())
  | some c =>
    match readyChannelsLoop c none chs with
    | (c2, Except.ok _) => ({ st with cache := some c2 }, Except.ok ())
    | (c2, Except.error e) => ({ st with cache := some c2 }, Except.error e)

/-- The camelCase-to-snake_case conversion of consume_raw_event:
`re.sub` with the pattern matching every interior upper-case position
inserts an underscore there, then `.lower()` lowercases the result. -/
def convert_event_name (s : String) : String :=
  match s.data with
  | [] => ""
  | c :: rest => String.mk (c.toLower :: snakeTail rest)
where
  snakeTail : List Char → List Char
    | [] => []
    | c :: rest =>
      if c.isUpper then '_' :: c.toLower :: snakeTail rest
      else c.toLower :: snakeTail rest

/-- The parser table built in EventManager.__init__ by reflecting over the
parse_-prefixed methods: the registered keys are the method names with the
parse_ prefix stripped. -/
def parserNames : List String :=
  ["ready", "message", "message_update", "message_delete",
   "channel_create", "channel_update", "channel_delete",
   "channel_group_join", "channel_group_leave",
   "channel_start_typing", "channel_stop_typing", "channel_ack",
   "server_update", "server_delete",
   "server_member_join", "server_member_leave", "server_member_update",
   "server_role_update", "server_role_delete",
   "user_update", "user_relationship"]

/-- EventManager.consume_raw_event: converts the wire name, looks the parser
up (except KeyError: the unknown event is logged and dropped), then runs the
raw dispatch (a no-op) and the parser under except Exception, which logs and
swallows any parser exception.  `runner` stands for the looked-up parser
applied to the raw event, so it covers every possible handler behaviour,
including raising. -/
def consume_raw_event (runner : String → EMState → EMState × Except PyErr Unit)
    (st : EMState) (name : String) : EMState × Except PyErr Unit :=
  let key := convert_event_name name
  if parserNames.contains key then
    match runner key st with
    | (st2, Except.ok _) => (st2, Except.ok ())
    | (st2, Except.error _) => (st2, Except.ok ())
  else
    (st, Except.ok ())

/-- Gateway._dispatch (api/gateway.py lines 125-129): forwards to
consume_raw_event under except LookupError; that handler body touches the
missing attribute self._logger, so reaching it would raise AttributeError —
but consume_raw_event never raises, so the branch is dead. -/
def Gateway.dispatch_event (runner : String → EMState → EMState × Except PyErr Unit)
    (st : EMState) (name : String) : EMState × Except PyErr Unit :=
  match consume_raw_event runner st name with
  | (st2, Except.error e) =>
    if e.isLookupError then
      (st2, Except.error (PyErr.attributeError "Gateway object has no attribute logger"))
    else (st2, Except.error e)
  | (st2, Except.ok _) => (st2, Except.ok ())

/-- One consume_raw_event call on an event whose parser exists: the parser
runs and any exception it raises is logged and swallowed; the state is
whatever the parser left behind. -/
def consumeStep (st : EMState) (h : EMState → EMState × Except PyErr Unit) : EMState :=
  (h st).1

/-! Gateway transport (api/gateway.py). -/

/-- How the authentication wait of _authenticate resolves: the Authenticated
frame, an Error frame, or no qualifying frame within the 10 second
asyncio.wait_for window. -/
inductive AuthResult where
  | authenticated
  | errorFrame (reason : String)
  | timeout
  deriving DecidableEq, Repr

/-- Gateway._authenticate: an Error frame raises GatewayError with the frame
as reason; asyncio.TimeoutError from the 10 second wait_for is caught and
re-raised as GatewayError with reason Timeout error. -/
def Gateway.authenticate : AuthResult → Except PyErr Unit
  | AuthResult.authenticated => Except.ok ()
  | AuthResult.errorFrame r => Except.error (PyErr.gatewayError r)
  | AuthResult.timeout => Except.error (PyErr.gatewayError "Timeout error")

/-- The exception classes caught by the try of Gateway.start:
`except (aiohttp.ClientError, asyncio.TimeoutError)`.  GatewayError derives
from RuntimeError and matches neither. -/
def startCatches : PyErr → Bool
  | PyErr.aiohttpClientError => true
  | PyErr.asyncioTimeoutError => true
  | _ => false

/-- How one connection attempt inside the start loop turns out. -/
inductive ReceiveOutcome where
  | transportError
  | closedWithCode (code : Option Nat)
  deriving DecidableEq, Repr

/-- The outcome of the connect-and-authenticate phase of one iteration. -/
inductive ConnectOutcome where
  | connectFail
  | connected (auth : AuthResult) (rcv : ReceiveOutcome)
  deriving DecidableEq, Repr

/-- What one iteration of the start loop does next. -/
inductive StepResult where
  | reconnect
  | exit
  | raised (e : PyErr)
  deriving DecidableEq, Repr

/-- One iteration of the while loop of Gateway.start (lines 141-179): the
loop runs only while the _closed event is unset; a caught connect or
transport error loops for a reconnect; an exception outside the caught
classes propagates out of start; after a completed receive loop, a None
close code returns, any other close code loops for a reconnect. -/
def Gateway.startIter (closedFlag : Bool) (o : ConnectOutcome) : StepResult :=
  if closedFlag then StepResult.exit
  else
    match o with
    | ConnectOutcome.connectFail => StepResult.reconnect
    | ConnectOutcome.connected auth rcv =>
      match Gateway.authenticate auth with
      | Except.error e =>
        if startCatches e then StepResult.reconnect else StepResult.raised e
      | Except.ok _ =>
        match rcv with
        | ReceiveOutcome.transportError => StepResult.reconnect
        | ReceiveOutcome.closedWithCode none => StepResult.exit
        | ReceiveOutcome.closedWithCode (some _) => StepResult.reconnect

/-- The flags and socket state of one Gateway object: the _closing and
_closed events and the live websocket with its close code. -/
structure GatewayState where
  closing : Bool
  closed : Bool
  wsLive : Bool
  wsCloseCode : Option Nat
  deriving DecidableEq, Repr

/-- Gateway.close (lines 131-139): when _closing is not yet set, closes the
live websocket if any (a client-initiated close handshake records close code
1000 on the socket) and sets the _closing event.  The _closed event — the
one start checks — is set nowhere in the class. -/
def Gateway.close (g : GatewayState) : GatewayState :=
  if g.closing then g
  else
    let g1 :=
      if g.wsLive then { g with wsLive := false, wsCloseCode := some 1000 } else g
    { g1 with closing := true }

/-- The branch of start after the receive loop finishes: a None close code
logs closed-by-the-client and returns; any other close code logs a reconnect
notice and control returns to the while test. -/
def Gateway.afterReceive (closeCode : Option Nat) : Bool :=
  match closeCode with
  | none => false
  | some _ => true

/-- The while test of start: the loop body — which opens a fresh
ClientSession and websocket — is entered exactly when _closed is unset. -/
def Gateway.loopEntersBody (closedFlag : Bool) : Bool := !closedFlag

/-! Concrete fixtures used by the theorems. -/

/-- CacheSettings with every component disabled. -/
def noneSettings : CacheSettings :=
  { components := CacheComponents.NONE, max_messages := 300, max_dm_channel_ids := 50 }

/-- CacheSettings with a message bound of one. -/
def smallMessageSettings : CacheSettings :=
  { components := CacheComponents.ALL, max_messages := 1, max_dm_channel_ids := 50 }

def exUserA : User := { id := "u1", name := "alice", online := false }

def exUserB : User := { id := "u1", name := "bob", online := true }

def exChannelA : Channel := Channel.savedMessageChannel "c1"

def exChannelB : Channel := Channel.textChannel "c1" "s1" "general" none

def exServerS1 : Server :=
  { id := "s1", name := "guild", owner_id := "u0", description := none, channel_ids := [] }

def exServerS1b : Server :=
  { id := "s1", name := "renamed", owner_id := "u9", description := none, channel_ids := [] }

def exMessageA : Message :=
  { id := "m1", channel_id := "c1", author_id := "u1", content := "hi", replies_ids := [] }

def exMessageA2 : Message :=
  { id := "m1", channel_id := "c1", author_id := "u2", content := "edited", replies_ids := [] }

def exMessageB : Message :=
  { id := "m2", channel_id := "c1", author_id := "u1", content := "second", replies_ids := [] }

def exMemberM1 : Member := { id := "s1", user_id := "u1" }

/-- An event-manager state with an enabled (default-settings) cache and an
empty trace. -/
def defaultEnabledEM : EMState := { cache := some (mkCache defaultCacheSettings), trace := [] }

/-- An event-manager state with no cache. -/
def emptyEM : EMState := { cache := none, trace := [] }

/-- A handler that does nothing, for instantiating the dispatch theorems. -/
def nullRunner : String → EMState → EMState × Except PyErr Unit :=
  fun _ st => (st, Except.ok ())

/-- A gateway with a live connection, nothing closing. -/
def liveGateway : GatewayState :=
  { closing := false, closed := false, wsLive := true, wsCloseCode := none }

/-- The three member events of the join/update/leave scenario, consumed in
order through the normaliser on an enabled cache. -/
def memberSeqResult : EMState :=
  consumeStep
    (consumeStep
      (consumeStep defaultEnabledEM
        (fun s => parse_server_member_join s { id := "s1", user := "u1" }))
      (fun s => parse_server_member_update s { id := "s1" }))
    (fun s => parse_server_member_leave s { id := "s1", user := "u1" })

/-- A Ready channel entry with the DirectMessage discriminator. -/
def dmReadyPayload : ReadyChannelPayload :=
  { channel_type := "DirectMessage", id := "c1", server := "", name := "", description := none }

/-- A Ready channel list whose first entry has an unrecognised discriminator
and whose second entry is a valid TextChannel. -/
def bogusFirstPayloads : List ReadyChannelPayload :=
  [{ channel_type := "Bogus", id := "c0", server := "", name := "", description := none },
   { channel_type := "TextChannel", id := "c2", server := "s1", name := "general",
     description := none }]

/-! Association-list lemmas. -/

theorem dictGet_dictSet_self (d : List (String × α)) (k : String) (v : α) :
    dictGet (dictSet d k v) k = some v := by
  induction d with
  | nil => simp [dictSet, dictGet]
  | cons p rest ih =>
    by_cases h : p.1 = k
    · simp [dictSet, dictGet, h]
    · simp [dictSet, dictGet, h, ih]

theorem dictSet_length (d : List (String × α)) (k : String) (v : α) :
    (dictSet d k v).length =
      if (dictGet d k).isSome then d.length else d.length + 1 := by
  induction d with
  | nil => simp [dictSet, dictGet]
  | cons p rest ih =>
    by_cases h : p.1 = k
    · simp [dictSet, dictGet, h]
    · by_cases h2 : (dictGet rest k).isSome <;>
        simp [dictSet, dictGet, h, ih, h2]

theorem dictSet_length_ge (d : List (String × α)) (k : String) (v : α) :
    d.length ≤ (dictSet d k v).length := by
  rw [dictSet_length]
  split <;> omega

/-- Storing twice under the same key: each get sees the latest value and the
second store replaces instead of duplicating. -/
theorem dictSet_replace_facts (d : List (String × α)) (k : String) (v1 v2 : α) :
    dictGet (dictSet d k v1) k = some v1 ∧
    dictGet (dictSet (dictSet d k v1) k v2) k = some v2 ∧
    (dictSet (dictSet d k v1) k v2).length = (dictSet d k v1).length := by
  refine ⟨dictGet_dictSet_self d k v1, dictGet_dictSet_self (dictSet d k v1) k v2, ?_⟩
  rw [dictSet_length]
  simp [dictGet_dictSet_self]

/-- Sanity check of the dispatch-key conversion against the two conversion
examples of the spec. -/
theorem convert_event_name_examples :
    convert_event_name "ServerMemberJoin" = "server_member_join" ∧
    convert_event_name "Ready" = "ready" := by
  constructor <;> rfl

/-- C1: the claim says every update operation returns the pair of the
previous and the new value and never raises.  In fact every update operation
raises on every input: update_user, update_channel, update_server,
update_member and update_message end in the two-argument call tuple(old,
new), which raises TypeError, and update_me evaluates copy.copy on the
function imported by from-copy-import-copy, which raises AttributeError
before anything is stored. -/
theorem update_ops_always_raise :
    ∀ (c : CacheState) (u : User) (ch : Channel) (s : Server) (m : Member)
      (msg : Message) (me : OwnUser),
      (MutableCache.update_user c u).2 =
        Except.error (PyErr.typeError "tuple expected at most 1 argument, got 2") ∧
      (MutableCache.update_channel c ch).2 =
        Except.error (PyErr.typeError "tuple expected at most 1 argument, got 2") ∧
      (MutableCache.update_server c s).2 =
        Except.error (PyErr.typeError "tuple expected at most 1 argument, got 2") ∧
      (MutableCache.update_member c m).2 =
        Except.error (PyErr.typeError "tuple expected at most 1 argument, got 2") ∧
      (MutableCache.update_message c msg).2 =
        Except.error (PyErr.typeError "tuple expected at most 1 argument, got 2") ∧
      (MutableCache.update_me c me).2 =
        Except.error (PyErr.attributeError "function object has no attribute copy") :=
  fun _ _ _ _ _ _ _ => ⟨rfl, rfl, rfl, rfl, rfl, rfl⟩

/-- C2: the claim says that with every cache component disabled every mutator
leaves every collection unchanged, all views staying at size 0.  No
MutableCache mutator consults settings.components: on a cache built with
CacheComponents.NONE, set_user grows the users view from 0 to 1 entries and
set_message grows the messages view from 0 to 1 entries. -/
theorem disabled_cache_mutators_still_mutate :
    (mkCache noneSettings).settings.components = CacheComponents.NONE ∧
    (Cache.get_users_view (mkCache noneSettings)).length = 0 ∧
    (Cache.get_users_view (MutableCache.set_user (mkCache noneSettings) exUserA)).length = 1 ∧
    (Cache.get_messages_view (mkCache noneSettings)).length = 0 ∧
    (Cache.get_messages_view
      (MutableCache.set_message (mkCache noneSettings) exMessageA)).length = 1 :=
  ⟨rfl, rfl, rfl, rfl, rfl⟩

/-- C3 counterexample: an authentication timeout makes _authenticate raise
GatewayError, and the start iteration re-raises it instead of reconnecting —
the error does propagate out of start. -/
theorem auth_timeout_escapes_start :
    Gateway.startIter false
        (ConnectOutcome.connected AuthResult.timeout (ReceiveOutcome.closedWithCode none)) =
      StepResult.raised (PyErr.gatewayError "Timeout error") ∧
    StepResult.raised (PyErr.gatewayError "Timeout error") ≠ StepResult.reconnect :=
  ⟨rfl, by decide⟩

/-- C3 amended: on an authentication timeout, _authenticate raises
GatewayError with reason Timeout error; the start loop catches only
aiohttp.ClientError and asyncio.TimeoutError, so the GatewayError propagates
out of start and no reconnect attempt is made, whatever the receive phase
would have produced. -/
theorem auth_timeout_raises_uncaught :
    ∀ rcv : ReceiveOutcome,
      Gateway.authenticate AuthResult.timeout =
        Except.error (PyErr.gatewayError "Timeout error") ∧
      startCatches (PyErr.gatewayError "Timeout error") = false ∧
      Gateway.startIter false (ConnectOutcome.connected AuthResult.timeout rcv) =
        StepResult.raised (PyErr.gatewayError "Timeout error") :=
  fun _ => ⟨rfl, rfl, rfl⟩

/-- C4: the claim says that after close() the start loop observes the signal
and never reconnects.  close() sets the _closing event and closes the live
socket (recording close code 1000), but the loop tests the _closed event,
which no code ever sets: after close() the post-receive branch sees a
non-None close code and loops, and the while test still enters the body,
opening a new connection. -/
theorem close_does_not_stop_start :
    (Gateway.close liveGateway).closing = true ∧
    (Gateway.close liveGateway).wsCloseCode = some 1000 ∧
    Gateway.afterReceive (Gateway.close liveGateway).wsCloseCode = true ∧
    Gateway.loopEntersBody (Gateway.close liveGateway).closed = true ∧
    (∀ g : GatewayState, (Gateway.close g).closed = g.closed) := by
  refine ⟨rfl, rfl, rfl, rfl, ?_⟩
  intro g
  unfold Gateway.close
  by_cases h : g.closing
  · simp [h]
  · by_cases h2 : g.wsLive <;> simp [h, h2]

/-- C5: the claim says the join, update, leave sequence for one member ends
with the member absent from the members view and the events join, update
with old and new, leave with the removed member emitted in order.  In fact
the final members view still contains the joined member — leave looks it up
through Cache.get_member, whose key is always the empty string, so the
deletion never runs — and the only emitted event is the join:
parse_server_member_update has an empty body and leave emits nothing. -/
theorem member_join_update_leave_wrong :
    memberSeqResult.cache.map Cache.get_members_view =
      some [("s1", { id := "s1", user_id := "u1" })] ∧
    emittedEvents memberSeqResult.trace =
      [DomainEvent.server_member_join { id := "s1", user_id := "u1" }] :=
  ⟨rfl, rfl⟩

/-- C7: the claim says an unrecognised channel_type is logged and skipped
with processing continuing and every recognised discriminator constructing
the matching variant.  In fact the DirectMessage branch (like the Group and
VoiceChannel branches) constructs a SavedMessageChannel, and an unrecognised
discriminator in the first position leaves the loop variable unbound, so the
unconditional set_channel below the if-chain raises NameError and the
remaining channels — here a valid TextChannel — are never cached. -/
theorem ready_channel_discriminator_mismatch :
    (readyChannelsLoop (mkCache defaultCacheSettings) none [dmReadyPayload]).1.channels =
      [("c1", Channel.savedMessageChannel "c1")] ∧
    Channel.kind (Channel.savedMessageChannel "c1") = "SavedMessage" ∧
    Channel.kind (Channel.savedMessageChannel "c1") ≠ dmReadyPayload.channel_type ∧
    readyChannelsLoop (mkCache defaultCacheSettings) none bogusFirstPayloads =
      (mkCache defaultCacheSettings, Except.error (PyErr.nameError "channel")) ∧
    Cache.get_channel
      (readyChannelsLoop (mkCache defaultCacheSettings) none bogusFirstPayloads).1 "c2" =
      none := by
  refine ⟨by decide, rfl, by decide, rfl, rfl⟩

/-- C8: the claim says the messages view never exceeds max_messages, with
eviction of the oldest entry at the bound.  set_message never consults
settings.max_messages and never evicts: with max_messages set to 1, two
stores leave 2 entries, and in general a store never shrinks the
collection. -/
theorem message_cache_ignores_bound :
    smallMessageSettings.max_messages = 1 ∧
    (Cache.get_messages_view
      (MutableCache.set_message
        (MutableCache.set_message (mkCache smallMessageSettings) exMessageA)
        exMessageB)).length = 2 ∧
    (∀ (c : CacheState) (m : Message),
      c.messages.length ≤ (MutableCache.set_message c m).messages.length) :=
  ⟨rfl, rfl, fun c m => dictSet_length_ge c.messages (Object m.id) m⟩

/-- C9 counterexample: members break the set-then-get round trip.  Storing a
member places it in the members view (size 1), but Cache.get_member looks up
the empty-string key and returns None instead of the stored member. -/
theorem member_set_then_get_misses :
    (Cache.get_members_view
      (MutableCache.set_member (mkCache defaultCacheSettings) exMemberM1)).length = 1 ∧
    Cache.get_member (MutableCache.set_member (mkCache defaultCacheSettings) exMemberM1)
      "s1" "u1" = none ∧
    (none : Option Member) ≠ some exMemberM1 :=
  ⟨rfl, rfl, by decide⟩

/-- C9 amended: for users, channels, servers and messages, set followed by
get returns the stored entity, a second set under the same Identity followed
by get returns the replacement, and the second set leaves the collection
size unchanged (replace, never duplicate).  The member collection is
excluded: its get always misses (see the counterexample). -/
theorem set_get_replace_roundtrip (c : CacheState) (u1 u2 : User) (ch1 ch2 : Channel)
    (s1 s2 : Server) (m1 m2 : Message)
    (hu : u2.id = u1.id) (hch : ch2.id = ch1.id) (hs : s2.id = s1.id)
    (hm : m2.id = m1.id) :
    (Cache.get_user (MutableCache.set_user c u1) u1.id = some u1 ∧
     Cache.get_user (MutableCache.set_user (MutableCache.set_user c u1) u2) u1.id =
       some u2 ∧
     (MutableCache.set_user (MutableCache.set_user c u1) u2).users.length =
       (MutableCache.set_user c u1).users.length) ∧
    (Cache.get_channel (MutableCache.set_channel c ch1) ch1.id = some ch1 ∧
     Cache.get_channel (MutableCache.set_channel (MutableCache.set_channel c ch1) ch2)
       ch1.id = some ch2 ∧
     (MutableCache.set_channel (MutableCache.set_channel c ch1) ch2).channels.length =
       (MutableCache.set_channel c ch1).channels.length) ∧
    (Cache.get_server (MutableCache.set_server c s1) s1.id = some s1 ∧
     Cache.get_server (MutableCache.set_server (MutableCache.set_server c s1) s2)
       s1.id = some s2 ∧
     (MutableCache.set_server (MutableCache.set_server c s1) s2).servers.length =
       (MutableCache.set_server c s1).servers.length) ∧
    (Cache.get_message (MutableCache.set_message c m1) m1.id = some m1 ∧
     Cache.get_message (MutableCache.set_message (MutableCache.set_message c m1) m2)
       m1.id = some m2 ∧
     (MutableCache.set_message (MutableCache.set_message c m1) m2).messages.length =
       (MutableCache.set_message c m1).messages.length) := by
  refine ⟨?_, ?_, ?_, ?_⟩
  · have h := dictSet_replace_facts c.users u1.id u1 u2
    constructor
    · exact dictGet_dictSet_self c.users u1.id u1
    · constructor
      · show dictGet (dictSet (dictSet c.users u1.id u1) u2.id u2) u1.id = some u2
        rw [hu]; exact h.2.1
      · show (dictSet (dictSet c.users u1.id u1) u2.id u2).length =
          (dictSet c.users u1.id u1).length
        rw [hu]; exact h.2.2
  · have h := dictSet_replace_facts c.channels ch1.id ch1 ch2
    constructor
    · exact dictGet_dictSet_self c.channels ch1.id ch1
    · constructor
      · show dictGet (dictSet (dictSet c.channels ch1.id ch1) ch2.id ch2) ch1.id =
          some ch2
        rw [hch]; exact h.2.1
      · show (dictSet (dictSet c.channels ch1.id ch1) ch2.id ch2).length =
          (dictSet c.channels ch1.id ch1).length
        rw [hch]; exact h.2.2
  · have h := dictSet_replace_facts c.servers s1.id s1 s2
    constructor
    · exact dictGet_dictSet_self c.servers s1.id s1
    · constructor
      · show dictGet (dictSet (dictSet c.servers s1.id s1) s2.id s2) s1.id = some s2
        rw [hs]; exact h.2.1
      · show (dictSet (dictSet c.servers s1.id s1) s2.id s2).length =
          (dictSet c.servers s1.id s1).length
        rw [hs]; exact h.2.2
  · have h := dictSet_replace_facts c.messages m1.id m1 m2
    constructor
    · exact dictGet_dictSet_self c.messages m1.id m1
    · constructor
      · show dictGet (dictSet (dictSet c.messages m1.id m1) m2.id m2) m1.id = some m2
        rw [hm]; exact h.2.1
      · show (dictSet (dictSet c.messages m1.id m1) m2.id m2).length =
          (dictSet c.messages m1.id m1).length
        rw [hm]; exact h.2.2

/-- Witness for the amended C9 round trip, at a fresh default cache with two
users, channels, servers and messages sharing their respective Identities. -/
theorem set_get_replace_roundtrip_witness :
    exUserB.id = exUserA.id ∧ exChannelB.id = exChannelA.id ∧
    exServerS1b.id = exServerS1.id ∧ exMessageA2.id = exMessageA.id ∧
    ((Cache.get_user (MutableCache.set_user (mkCache defaultCacheSettings) exUserA)
        exUserA.id = some exUserA ∧
      Cache.get_user (MutableCache.set_user
        (MutableCache.set_user (mkCache defaultCacheSettings) exUserA) exUserB)
        exUserA.id = some exUserB ∧
      (MutableCache.set_user (MutableCache.set_user (mkCache defaultCacheSettings) exUserA)
        exUserB).users.length =
        (MutableCache.set_user (mkCache defaultCacheSettings) exUserA).users.length) ∧
     (Cache.get_channel (MutableCache.set_channel (mkCache defaultCacheSettings) exChannelA)
        exChannelA.id = some exChannelA ∧
      Cache.get_channel (MutableCache.set_channel
        (MutableCache.set_channel (mkCache defaultCacheSettings) exChannelA) exChannelB)
        exChannelA.id = some exChannelB ∧
      (MutableCache.set_channel
        (MutableCache.set_channel (mkCache defaultCacheSettings) exChannelA)
        exChannelB).channels.length =
        (MutableCache.set_channel (mkCache defaultCacheSettings) exChannelA).channels.length) ∧
     (Cache.get_server (MutableCache.set_server (mkCache defaultCacheSettings) exServerS1)
        exServerS1.id = some exServerS1 ∧
      Cache.get_server (MutableCache.set_server
        (MutableCache.set_server (mkCache defaultCacheSettings) exServerS1) exServerS1b)
        exServerS1.id = some exServerS1b ∧
      (MutableCache.set_server
        (MutableCache.set_server (mkCache defaultCacheSettings) exServerS1)
        exServerS1b).servers.length =
        (MutableCache.set_server (mkCache defaultCacheSettings) exServerS1).servers.length) ∧
     (Cache.get_message (MutableCache.set_message (mkCache defaultCacheSettings) exMessageA)
        exMessageA.id = some exMessageA ∧
      Cache.get_message (MutableCache.set_message
        (MutableCache.set_message (mkCache defaultCacheSettings) exMessageA) exMessageA2)
        exMessageA.id = some exMessageA2 ∧
      (MutableCache.set_message
        (MutableCache.set_message (mkCache defaultCacheSettings) exMessageA)
        exMessageA2).messages.length =
        (MutableCache.set_message (mkCache defaultCacheSettings) exMessageA).messages.length)) :=
  ⟨rfl, rfl, rfl, rfl,
   set_get_replace_roundtrip (mkCache defaultCacheSettings) exUserA exUserB
     exChannelA exChannelB exServerS1 exServerS1b exMessageA exMessageA2
     rfl rfl rfl rfl⟩

/-- C10: consume_raw_event never lets an exception escape — an event type
with no registered parser is logged and dropped with the state untouched,
and a parser that raises any exception has it caught and logged — and the
Gateway dispatch wrapper therefore never raises either. -/
theorem dispatch_never_raises :
    ∀ (runner : String → EMState → EMState × Except PyErr Unit) (st : EMState)
      (name : String),
      (consume_raw_event runner st name).2 = Except.ok () ∧
      (Gateway.dispatch_event runner st name).2 = Except.ok () ∧
      (convert_event_name name ∉ parserNames →
        consume_raw_event runner st name = (st, Except.ok ())) := by
  intro runner st name
  have h1 : (consume_raw_event runner st name).2 = Except.ok () := by
    unfold consume_raw_event
    dsimp only
    split
    · cases hr : runner (convert_event_name name) st with
      | mk st2 r => cases r <;> simp [hr]
    · rfl
  refine ⟨h1, ?_, ?_⟩
  · unfold Gateway.dispatch_event
    rcases hc : consume_raw_event runner st name with ⟨st2, r⟩
    have hr : r = Except.ok () := by
      have := h1
      rw [hc] at this
      exact this
    subst hr
    rfl
  · intro h
    unfold consume_raw_event
    dsimp only
    split
    · next hcond =>
      exact absurd (by simpa using hcond) h
    · rfl

/-- Witness for the unknown-event branch of the dispatch theorem: the name
Wibble has no registered parser, and the event is dropped with the state
unchanged. -/
theorem dispatch_never_raises_witness :
    convert_event_name "Wibble" ∉ parserNames ∧
    consume_raw_event nullRunner emptyEM "Wibble" = (emptyEM, Except.ok ()) :=
  ⟨by decide, (dispatch_never_raises nullRunner emptyEM "Wibble").2.2 (by decide)⟩

end Defectio
